import Mathlib

/-!
Shallow embedding of the EcoPulse truck-traffic dashboard
(`src/streamlit_app.py`) for verification of its specification.

Modelling conventions:
* Machine floats in the source hold exact decimal literals and results of
  elementary arithmetic on small values; they are modelled as rationals (ℚ).
* The two external Google-Maps calls (geocoding, distance matrix) are
  modelled as explicit inputs to `calculate_distance`: the list of geocode
  results and the single distance-matrix element that the source inspects.
* Rendering-only material (folium markers, popup HTML, GeoJSON overlays,
  map centering) is not part of the claims and is omitted; the classification
  output of `create_traffic_map` (the two thresholds and the per-site marker
  colors) is retained.
-/

/-- Marker colors used by `create_traffic_map`: red = high tier,
orange = mid tier, green = low tier. -/
inductive Color where
  | red
  | orange
  | green
deriving DecidableEq, Repr

/-- The eight truck-class labels offered by the sidebar multiselect
(lines 348-350 of `streamlit_app.py`). -/
inductive ClassName where
  | class3
  | class4
  | class5
  | class6
  | class7
  | class8
  | class9
  | class10
deriving DecidableEq, Repr

/-- The nested `site` descriptor of a record of `site_statistics.json`. -/
structure SiteInfo where
  siteNumber : String
  roadname : String
  locationDesc : String
  roadDir : String
  lat : ℚ
  long : ℚ
deriving DecidableEq, Repr

/-- One record of `site_statistics.json`: the site descriptor plus the
eight vehicle-class counts `Class3` … `Class10`. -/
structure SiteRecord where
  site : SiteInfo
  Class3 : ℕ
  Class4 : ℕ
  Class5 : ℕ
  Class6 : ℕ
  Class7 : ℕ
  Class8 : ℕ
  Class9 : ℕ
  Class10 : ℕ
deriving DecidableEq, Repr

/-- Lookup of a class count on a record: the source builds the dict key
`"Class" + last word of the label` and reads `item[key]` /
`d.get(key, 0)`; every record carries all eight keys, so both accesses
yield the named field. -/
def classCount (d : SiteRecord) : ClassName → ℕ
  | .class3 => d.Class3
  | .class4 => d.Class4
  | .class5 => d.Class5
  | .class6 => d.Class6
  | .class7 => d.Class7
  | .class8 => d.Class8
  | .class9 => d.Class9
  | .class10 => d.Class10

/-- `item['Class3'] + … + item['Class10']`, the all-classes total used
throughout the source. -/
def total8 (d : SiteRecord) : ℕ :=
  d.Class3 + d.Class4 + d.Class5 + d.Class6 + d.Class7 + d.Class8 +
    d.Class9 + d.Class10

/-- `sum(item[key] for key in class_keys)`: the combined count over the
selected classes. -/
def combinedCount (d : SiteRecord) (sel : List ClassName) : ℕ :=
  (sel.map (classCount d)).sum

/-- Linear interpolation at fractional position `x` into a (sorted) list,
as `np.quantile` does after computing `x = q * (n - 1)`:
`a + (x - i) * (b - a)` with `i = ⌊x⌋`, `a` the `i`-th and `b` the
`(i+1)`-th element (the latter defaulting to `a` at the right edge). -/
def interpAt (s : List ℚ) (x : ℚ) : ℚ :=
  s.getD ⌊x⌋.toNat 0 +
    (x - (⌊x⌋.toNat : ℚ)) *
      (s.getD (⌊x⌋.toNat + 1) (s.getD ⌊x⌋.toNat 0) - s.getD ⌊x⌋.toNat 0)

/-- `np.quantile(xs, q)` with the default linear-interpolation method:
sort, then interpolate at position `q * (n - 1)`. (The source only calls
it on non-empty lists; the empty case is given the value 0.) -/
def npQuantile (xs : List ℚ) (q : ℚ) : ℚ :=
  let s := xs.insertionSort (· ≤ ·)
  if s.isEmpty then 0 else interpAt s (((s.length - 1 : ℕ) : ℚ) * q)

/-- Threshold computation of `create_traffic_map` (lines 134-149):
when the selection is non-empty, the 0.67- and 0.33-quantiles of the
per-site combined counts; otherwise of the per-site all-classes totals;
`(0, 0)` when the aggregate list is empty. Returns
`(top_third_threshold, middle_third_threshold)`. -/
def trafficThresholds (data : List SiteRecord) (sel : List ClassName) :
    ℚ × ℚ :=
  if ¬ sel.isEmpty then
    if ¬ (data.map fun d => (combinedCount d sel : ℚ)).isEmpty then
      (npQuantile (data.map fun d => (combinedCount d sel : ℚ)) (67 / 100),
       npQuantile (data.map fun d => (combinedCount d sel : ℚ)) (33 / 100))
    else (0, 0)
  else
    if ¬ (data.map fun d => (total8 d : ℚ)).isEmpty then
      (npQuantile (data.map fun d => (total8 d : ℚ)) (67 / 100),
       npQuantile (data.map fun d => (total8 d : ℚ)) (33 / 100))
    else (0, 0)

/-- Per-site aggregate used in the marker loop (lines 208 and 221):
combined count of the selected classes when the selection is non-empty,
all-classes total otherwise. -/
def markerAggregate (sel : List ClassName) (d : SiteRecord) : ℕ :=
  if ¬ sel.isEmpty then combinedCount d sel else total8 d

/-- Marker color decision of the marker loop (lines 211-229):
red above the top threshold, orange above the middle threshold,
green otherwise. -/
def siteColor (sel : List ClassName) (top mid : ℚ) (d : SiteRecord) :
    Color :=
  if (markerAggregate sel d : ℚ) > top then Color.red
  else if (markerAggregate sel d : ℚ) > mid then Color.orange
  else Color.green

/-- The classification output of `create_traffic_map`: the two percentile
thresholds and one colored marker per site (when the traffic layer is
shown). -/
structure MapResult where
  topThreshold : ℚ
  midThreshold : ℚ
  markers : List (SiteRecord × Color)
deriving DecidableEq, Repr

/-- `create_traffic_map` (lines 114-305), restricted to its
classification content: `None` on empty data; otherwise the thresholds
of lines 134-149 and, when `show_traffic` is set, one marker per site
colored by lines 206-231. -/
def create_traffic_map (data : List SiteRecord) (show_traffic : Bool)
    (sel : List ClassName) : Option MapResult :=
  if data.isEmpty then none
  else
    some { topThreshold := (trafficThresholds data sel).1
           midThreshold := (trafficThresholds data sel).2
           markers :=
             if show_traffic then
               data.map fun d =>
                 (d, siteColor sel (trafficThresholds data sel).1
                   (trafficThresholds data sel).2 d)
             else [] }

/-- State-passing form of `create_traffic_map`: the pair of the result and
the post-state of the `data` argument. The source body only reads item
fields (`item['site']`, `item[key]`, `d.get(key, 0)`) and constructs fresh
folium objects; it contains no assignment into `data` or its records, so
the post-state equals the input. -/
def create_traffic_map_state (data : List SiteRecord)
    (sel : List ClassName) (show_traffic : Bool) :
    Option MapResult × List SiteRecord :=
  (create_traffic_map data show_traffic sel, data)

/-- The seven truck classes of the `fuel_consumption` lookup table
(lines 425-433 and 490-498 of `streamlit_app.py`). -/
inductive TruckClass where
  | class4MediumRigid
  | class5HeavyRigid
  | class7Arctic4Axle
  | class8Artic5Axle
  | class9Artic6Axle
  | class9Rigid5AxleDog
  | class10BDouble
deriving DecidableEq, Repr

/-- The fixed per-class consumption table (litres per 100 km). -/
def fuel_consumption : TruckClass → ℚ
  | .class4MediumRigid => 1245859 / 100000
  | .class5HeavyRigid => 2322869 / 100000
  | .class7Arctic4Axle => 2724712 / 100000
  | .class8Artic5Axle => 3044964 / 100000
  | .class9Artic6Axle => 3814329 / 100000
  | .class9Rigid5AxleDog => 3814329 / 100000
  | .class10BDouble => 4148179 / 100000

/-- `fuel_needed = (distance_km / 100) * fuel_consumption[truck_class]`
with `distance_km = distance_value / 1000` (lines 487-500);
`distance_value` is the distance in metres returned by the API. -/
def fuelNeeded (distanceValue : ℕ) (tc : TruckClass) : ℚ :=
  ((distanceValue : ℚ) / 1000 / 100) * fuel_consumption tc

/-- `hydrogen_use = (fuel_needed * 45) / 120` (line 504). -/
def hydrogenUse (fuelLiters : ℚ) : ℚ :=
  (fuelLiters * 45) / 120

/-- A geocode result's coordinate
(`geocode_result[0]['geometry']['location']`). -/
structure GeoLocation where
  lat : ℚ
  lng : ℚ
deriving DecidableEq, Repr

/-- The single distance-matrix element the source inspects
(`result['rows'][0]['elements'][0]`): its status, its textual distance
and duration, and the numeric distance in metres. -/
structure MatrixElement where
  status : String
  distanceText : String
  durationText : String
  distanceValue : ℕ
deriving DecidableEq, Repr

/-- Successful return value of `calculate_distance` (lines 52-57). -/
structure DistanceResult where
  distance : String
  duration : String
  distance_value : ℕ
  destination_coords : ℚ × ℚ
deriving DecidableEq, Repr

/-- `calculate_distance` (lines 26-61). The external calls are passed in:
`gmapsOk` is the truthiness of the client object, `geocodeResult` the list
returned by the geocoding call, `element` the first distance-matrix
element. Returns `None` when the client is falsy or the destination text
is empty, when geocoding yields no result, or when the element status is
not `'OK'`. -/
def calculate_distance (gmapsOk : Bool) (destination_address : String)
    (geocodeResult : List GeoLocation) (element : MatrixElement) :
    Option DistanceResult :=
  if ¬ gmapsOk ∨ destination_address = "" then none
  else
    match geocodeResult with
    | [] => none
    | g :: _ =>
      if element.status = "OK" then
        some { distance := element.distanceText
               duration := element.durationText
               distance_value := element.distanceValue
               destination_coords := (g.lat, g.lng) }
      else none

/-- Python banker's rounding of a rational to the nearest integer
(`round` rounds half to even). -/
def pyRound (x : ℚ) : ℤ :=
  if x - ⌊x⌋ < 1 / 2 then ⌊x⌋
  else if x - ⌊x⌋ > 1 / 2 then ⌊x⌋ + 1
  else if 2 ∣ ⌊x⌋ then ⌊x⌋ else ⌊x⌋ + 1

/-- `round(x, 2)`: rounding to two decimal places. -/
def round2 (x : ℚ) : ℚ :=
  (pyRound (x * 100) : ℚ) / 100

/-- One row of the `display_data` table (lines 551-559). -/
structure DisplayRow where
  siteNumber : String
  roadName : String
  location : String
  totalVehicles : ℕ
  mediumTrucks : ℕ
  heavyTrucks : ℕ
  heavyPct : ℚ
deriving DecidableEq, Repr

/-- The row built for one site record (lines 551-559): identity fields,
all-classes total, medium (3-5) and heavy (6+) subtotals, and the heavy
percentage, which is rounded to two decimals and guarded so the division
only happens when the total is strictly positive. -/
def displayRow (item : SiteRecord) : DisplayRow :=
  { siteNumber := item.site.siteNumber
    roadName := item.site.roadname
    location := item.site.locationDesc
    totalVehicles := total8 item
    mediumTrucks := item.Class3 + item.Class4 + item.Class5
    heavyTrucks :=
      item.Class6 + item.Class7 + item.Class8 + item.Class9 + item.Class10
    heavyPct :=
      if total8 item > 0 then
        round2
          (((item.Class6 + item.Class7 + item.Class8 + item.Class9 +
              item.Class10 : ℕ) : ℚ) / ((total8 item : ℕ) : ℚ) * 100)
      else 0 }

/-- `display_data` (lines 548-559): one row per displayed site
(`filtered_data` is the full loaded list, line 333). -/
def display_data (data : List SiteRecord) : List DisplayRow :=
  data.map displayRow

/-- A minimal concrete site record whose class counts are all zero except
`Class3`. -/
def demoSite (num : String) (c3 : ℕ) : SiteRecord :=
  { site :=
      { siteNumber := num
        roadname := "Great Northern Hwy"
        locationDesc := "demo"
        roadDir := "N"
        lat := 0
        long := 0 }
    Class3 := c3
    Class4 := 0
    Class5 := 0
    Class6 := 0
    Class7 := 0
    Class8 := 0
    Class9 := 0
    Class10 := 0 }

/-- The three-site data set of the spec's classification scenario:
aggregate counts 10, 50 and 90. -/
def demoData : List SiteRecord :=
  [demoSite ("s1") 10, demoSite ("s2") 50, demoSite ("s3") 90]

/-- A site record with all eight class counts zero. -/
def zeroSite : SiteRecord := demoSite ("z0") 0

/-! ## Helper lemmas -/

lemma interp_le_upper {a b t : ℚ} (hab : a ≤ b) (ht : t ≤ 1) :
    a + t * (b - a) ≤ b := by nlinarith

lemma lower_le_interp {a b t : ℚ} (hab : a ≤ b) (ht : 0 ≤ t) :
    a ≤ a + t * (b - a) := by nlinarith

lemma interp_mono_frac {a b u t : ℚ} (hab : a ≤ b) (hut : u ≤ t) :
    a + u * (b - a) ≤ a + t * (b - a) := by nlinarith

lemma getD_le_getD_of_sorted {s : List ℚ} (hs : List.Sorted (· ≤ ·) s)
    {i j : ℕ} (hij : i ≤ j) (hj : j < s.length) (d1 d2 : ℚ) :
    s.getD i d1 ≤ s.getD j d2 := by
  have hi : i < s.length := Nat.lt_of_le_of_lt hij hj
  rw [List.getD_eq_getElem s d1 hi, List.getD_eq_getElem s d2 hj]
  have h := hs.rel_get_of_le (a := ⟨i, hi⟩) (b := ⟨j, hj⟩) hij
  simpa [List.get_eq_getElem] using h

/-- Linear interpolation into a sorted list is monotone in the position. -/
lemma interpAt_mono {s : List ℚ} (hs : List.Sorted (· ≤ ·) s) (hne : s ≠ [])
    {x y : ℚ} (hx : 0 ≤ x) (hxy : x ≤ y)
    (hy : y ≤ ((s.length - 1 : ℕ) : ℚ)) :
    interpAt s x ≤ interpAt s y := by
  have hn : 0 < s.length := List.length_pos.mpr hne
  unfold interpAt
  set n := s.length with hndef
  set i := ⌊x⌋.toNat with hidef
  set j := ⌊y⌋.toNat with hjdef
  have hfx : (0 : ℤ) ≤ ⌊x⌋ := Int.floor_nonneg.mpr hx
  have hfm : ⌊x⌋ ≤ ⌊y⌋ := Int.floor_mono hxy
  have hij : i ≤ j := by omega
  have hfyn : ⌊y⌋ ≤ ((n - 1 : ℕ) : ℤ) := by
    have h1 := Int.floor_mono hy
    rwa [Int.floor_natCast] at h1
  have hjn : j ≤ n - 1 := by omega
  have hjltn : j < n := by omega
  have hiltn : i < n := by omega
  have hxi : (i : ℚ) ≤ x := by
    have h1 : ((⌊x⌋.toNat : ℤ) : ℚ) ≤ x := by
      rw [Int.toNat_of_nonneg hfx]; exact Int.floor_le x
    exact_mod_cast h1
  have hxi1 : x < (i : ℚ) + 1 := by
    have h1 : x < ((⌊x⌋.toNat : ℤ) : ℚ) + 1 := by
      rw [Int.toNat_of_nonneg hfx]; exact Int.lt_floor_add_one x
    exact_mod_cast h1
  have hfy : (0 : ℤ) ≤ ⌊y⌋ := le_trans hfx hfm
  have hyj : (j : ℚ) ≤ y := by
    have h1 : ((⌊y⌋.toNat : ℤ) : ℚ) ≤ y := by
      rw [Int.toNat_of_nonneg hfy]; exact Int.floor_le y
    exact_mod_cast h1
  rcases Nat.lt_or_ge i j with hlt | hge
  · -- i < j : chain through the elements at i+1 and j
    have hi1n : i + 1 < n := by omega
    have hab : s.getD i 0 ≤ s.getD (i + 1) (s.getD i 0) :=
      getD_le_getD_of_sorted hs (Nat.le_succ i) hi1n 0 (s.getD i 0)
    have step1 : s.getD i 0 +
        (x - (i : ℚ)) * (s.getD (i + 1) (s.getD i 0) - s.getD i 0) ≤
        s.getD (i + 1) (s.getD i 0) :=
      interp_le_upper hab (by linarith)
    have step2 : s.getD (i + 1) (s.getD i 0) ≤ s.getD j 0 :=
      getD_le_getD_of_sorted hs (by omega) hjltn (s.getD i 0) 0
    have step3 : s.getD j 0 ≤ s.getD j 0 +
        (y - (j : ℚ)) * (s.getD (j + 1) (s.getD j 0) - s.getD j 0) := by
      by_cases hj1 : j + 1 < n
      · have hab2 : s.getD j 0 ≤ s.getD (j + 1) (s.getD j 0) :=
          getD_le_getD_of_sorted hs (Nat.le_succ j) hj1 0 (s.getD j 0)
        exact lower_le_interp hab2 (by linarith)
      · have hdef : s.getD (j + 1) (s.getD j 0) = s.getD j 0 :=
          List.getD_eq_default _ _ (by omega)
        rw [hdef]; simp
    linarith
  · -- i = j : both positions interpolate inside the same segment
    have hEq : j = i := le_antisymm hge hij
    rw [hEq]
    by_cases hi1 : i + 1 < n
    · have hab : s.getD i 0 ≤ s.getD (i + 1) (s.getD i 0) :=
        getD_le_getD_of_sorted hs (Nat.le_succ i) hi1 0 (s.getD i 0)
      exact interp_mono_frac hab (by linarith)
    · have hdef : s.getD (i + 1) (s.getD i 0) = s.getD i 0 :=
        List.getD_eq_default _ _ (by omega)
      rw [hdef]; simp

/-- `np.quantile` with linear interpolation is monotone in the quantile
level. -/
lemma npQuantile_mono (xs : List ℚ) {p q : ℚ} (hp : 0 ≤ p) (hpq : p ≤ q)
    (hq : q ≤ 1) : npQuantile xs p ≤ npQuantile xs q := by
  unfold npQuantile
  by_cases hemp : (xs.insertionSort (· ≤ ·)).isEmpty
  · simp [hemp]
  · simp only [hemp, if_false, Bool.false_eq_true]
    have hs : List.Sorted (· ≤ ·) (xs.insertionSort (· ≤ ·)) :=
      List.sorted_insertionSort _ _
    have hne : xs.insertionSort (· ≤ ·) ≠ [] := by
      intro h
      rw [h] at hemp
      simp at hemp
    have hcast :
        (0 : ℚ) ≤ (((xs.insertionSort (· ≤ ·)).length - 1 : ℕ) : ℚ) := by
      positivity
    apply interpAt_mono hs hne
    · exact mul_nonneg hcast hp
    · exact mul_le_mul_of_nonneg_left hpq hcast
    · calc (((xs.insertionSort (· ≤ ·)).length - 1 : ℕ) : ℚ) * q
          ≤ (((xs.insertionSort (· ≤ ·)).length - 1 : ℕ) : ℚ) * 1 :=
            mul_le_mul_of_nonneg_left hq hcast
        _ = _ := by ring

/-- The middle threshold never exceeds the top threshold, whichever
branch of the threshold computation is taken. -/
lemma trafficThresholds_snd_le_fst (data : List SiteRecord)
    (sel : List ClassName) :
    (trafficThresholds data sel).2 ≤ (trafficThresholds data sel).1 := by
  unfold trafficThresholds
  split
  · split
    · exact npQuantile_mono _ (by norm_num) (by norm_num) (by norm_num)
    · simp
  · split
    · exact npQuantile_mono _ (by norm_num) (by norm_num) (by norm_num)
    · simp

/-- `np.quantile` of a one-element list is that element at every level. -/
lemma npQuantile_singleton (v q : ℚ) : npQuantile [v] q = v := by
  unfold npQuantile interpAt
  norm_num [List.insertionSort, List.orderedInsert]

/-- On a single site, both thresholds equal that site's aggregate. -/
lemma trafficThresholds_single (d : SiteRecord) (sel : List ClassName) :
    trafficThresholds [d] sel =
      ((markerAggregate sel d : ℚ), (markerAggregate sel d : ℚ)) := by
  unfold trafficThresholds markerAggregate
  by_cases hsel : sel.isEmpty <;> simp [hsel, npQuantile_singleton]


/-! ## Claim theorems -/

/-- C1 (counterexample): for the three sites with aggregate counts 10, 50
and 90 and an empty class selection, the linear-interpolation percentile
thresholds computed by the code are 36.4 and 63.6 — not approximately 23.6
and 70.4 as the spec's scenario states (both are off by far more than any
rounding tolerance of 1). -/
theorem classification_scenario_counterexample :
    (trafficThresholds demoData []).2 = 182 / 5 ∧
    (trafficThresholds demoData []).1 = 318 / 5 ∧
    ¬ (|(trafficThresholds demoData []).2 - 118 / 5| ≤ 1) ∧
    ¬ (|(trafficThresholds demoData []).1 - 352 / 5| ≤ 1) := by
  have hx : trafficThresholds demoData [] = (318 / 5, 182 / 5) := by
    norm_num [trafficThresholds, npQuantile, interpAt, demoData, demoSite,
      total8, List.insertionSort, List.orderedInsert]
  rw [hx]
  norm_num [abs_le]

/-- C1 (amended): for the three sites with aggregate counts 10, 50 and 90
and an empty class selection, the classification computes
`lowThreshold = 36.4` and `highThreshold = 63.6` (the 33rd and 67th
linear-interpolation percentiles of [10, 50, 90]) and assigns the three
sites the tiers low (green), mid (orange) and high (red) respectively. -/
theorem classification_scenario :
    create_traffic_map demoData true [] =
      some { topThreshold := 318 / 5
             midThreshold := 182 / 5
             markers := [(demoSite ("s1") 10, Color.green),
                         (demoSite ("s2") 50, Color.orange),
                         (demoSite ("s3") 90, Color.red)] } := by
  norm_num [create_traffic_map, trafficThresholds, npQuantile, interpAt,
    demoData, demoSite, total8, siteColor, markerAggregate,
    List.insertionSort, List.orderedInsert]

/-- C2: for every non-empty site set and every class selection, the map is
produced, it carries one marker per site, and tier assignment is total and
disjoint: a site is red (high) exactly when its aggregate exceeds the top
threshold, orange (mid) exactly when its aggregate is at most the top
threshold but exceeds the middle threshold, and green (low) exactly when
its aggregate is at most the middle threshold. -/
theorem tier_partition (data : List SiteRecord) (sel : List ClassName)
    (h : data ≠ []) :
    ∃ m, create_traffic_map data true sel = some m ∧
      m.markers = data.map (fun d =>
        (d, siteColor sel m.topThreshold m.midThreshold d)) ∧
      ∀ d ∈ data,
        (siteColor sel m.topThreshold m.midThreshold d = Color.red ∨
         siteColor sel m.topThreshold m.midThreshold d = Color.orange ∨
         siteColor sel m.topThreshold m.midThreshold d = Color.green) ∧
        (siteColor sel m.topThreshold m.midThreshold d = Color.red ↔
          m.topThreshold < (markerAggregate sel d : ℚ)) ∧
        (siteColor sel m.topThreshold m.midThreshold d = Color.orange ↔
          ((markerAggregate sel d : ℚ) ≤ m.topThreshold ∧
           m.midThreshold < (markerAggregate sel d : ℚ))) ∧
        (siteColor sel m.topThreshold m.midThreshold d = Color.green ↔
          (markerAggregate sel d : ℚ) ≤ m.midThreshold) := by
  have hne : data.isEmpty = false := by
    simp [List.isEmpty_iff, h]
  refine ⟨{ topThreshold := (trafficThresholds data sel).1
            midThreshold := (trafficThresholds data sel).2
            markers := data.map (fun d =>
              (d, siteColor sel (trafficThresholds data sel).1
                (trafficThresholds data sel).2 d)) }, ?_, rfl, ?_⟩
  · simp [create_traffic_map, hne]
  · intro d hd
    have hmt := trafficThresholds_snd_le_fst data sel
    unfold siteColor
    by_cases h1 : (trafficThresholds data sel).1 < (markerAggregate sel d : ℚ)
    · simp [h1]
      linarith
    · by_cases h2 : (trafficThresholds data sel).2 < (markerAggregate sel d : ℚ)
      · simp [h1, h2]
        exact not_lt.mp h1
      · simp [h1, h2]
        exact not_lt.mp h2

/-- C2 witness: the partition property instantiated on the concrete
three-site data set with the empty selection. -/
theorem tier_partition_witness :
    demoData ≠ [] ∧
    (∃ m, create_traffic_map demoData true [] = some m ∧
      m.markers = demoData.map (fun d =>
        (d, siteColor [] m.topThreshold m.midThreshold d)) ∧
      ∀ d ∈ demoData,
        (siteColor [] m.topThreshold m.midThreshold d = Color.red ∨
         siteColor [] m.topThreshold m.midThreshold d = Color.orange ∨
         siteColor [] m.topThreshold m.midThreshold d = Color.green) ∧
        (siteColor [] m.topThreshold m.midThreshold d = Color.red ↔
          m.topThreshold < (markerAggregate [] d : ℚ)) ∧
        (siteColor [] m.topThreshold m.midThreshold d = Color.orange ↔
          ((markerAggregate [] d : ℚ) ≤ m.topThreshold ∧
           m.midThreshold < (markerAggregate [] d : ℚ))) ∧
        (siteColor [] m.topThreshold m.midThreshold d = Color.green ↔
          (markerAggregate [] d : ℚ) ≤ m.midThreshold)) :=
  ⟨by simp [demoData], tier_partition demoData [] (by simp [demoData])⟩

/-- C3: the per-site aggregate used for tier coloring is the sum of the
site's counts over the selected classes when the selection is non-empty,
and the sum of all eight class counts (`Class3` … `Class10`) when the
selection is empty. -/
theorem marker_aggregate_spec (d : SiteRecord) (sel : List ClassName) :
    markerAggregate sel d =
      (if sel = [] then
        d.Class3 + d.Class4 + d.Class5 + d.Class6 + d.Class7 + d.Class8 +
          d.Class9 + d.Class10
      else (sel.map (classCount d)).sum) := by
  unfold markerAggregate combinedCount total8
  cases sel <;> simp

/-- C4: the fuel estimate is `(distanceMeters / 1000 / 100)` times the
fixed per-class rate, and the hydrogen estimate is `fuelLiters * 45 / 120`;
for distance 100000 m and truck class Class 8 (Artic 5 Axle) the fuel
estimate is exactly 30.44964 L and the hydrogen estimate is exactly
11.418615 kg, within 0.01 of 11.42 kg. -/
theorem fuel_estimate_spec :
    (∀ distanceValue : ℕ, ∀ tc : TruckClass,
        fuelNeeded distanceValue tc =
          ((distanceValue : ℚ) / 1000 / 100) * fuel_consumption tc ∧
        hydrogenUse (fuelNeeded distanceValue tc) =
          fuelNeeded distanceValue tc * 45 / 120) ∧
    fuelNeeded 100000 TruckClass.class8Artic5Axle = 3044964 / 100000 ∧
    hydrogenUse (fuelNeeded 100000 TruckClass.class8Artic5Axle) =
      11418615 / 1000000 ∧
    |hydrogenUse (fuelNeeded 100000 TruckClass.class8Artic5Axle) -
      1142 / 100| < 1 / 100 := by
  refine ⟨fun distanceValue tc => ⟨rfl, rfl⟩, ?_, ?_, ?_⟩ <;>
    norm_num [fuelNeeded, hydrogenUse, fuel_consumption, abs_lt]

/-- C5: `calculate_distance` returns `None` exactly when the client is
not configured (falsy), the destination text is empty, the geocoding call
returns no result, or the distance-matrix element status is not OK; hence
a non-`None` result is returned only when all of these succeed. -/
theorem calculate_distance_unavailable (gmapsOk : Bool) (dest : String)
    (geo : List GeoLocation) (e : MatrixElement) :
    calculate_distance gmapsOk dest geo e = none ↔
      (gmapsOk = false ∨ dest = "" ∨ geo = [] ∨ e.status ≠ "OK") := by
  unfold calculate_distance
  cases gmapsOk <;> rcases geo with _ | ⟨g, gs⟩ <;>
    by_cases hdest : dest = "" <;> by_cases hst : e.status = "OK" <;>
    simp [hdest, hst]

/-- C6: on the empty site list the map composer returns no map, and on a
single site both thresholds equal that site's aggregate value and the site
is still assigned a tier (green, the low tier). -/
theorem map_edge_cases (d : SiteRecord) (sel : List ClassName) (sh : Bool) :
    create_traffic_map [] sh sel = none ∧
    create_traffic_map [d] true sel =
      some { topThreshold := (markerAggregate sel d : ℚ)
             midThreshold := (markerAggregate sel d : ℚ)
             markers := [(d, Color.green)] } := by
  constructor
  · simp [create_traffic_map]
  · unfold create_traffic_map
    simp [trafficThresholds_single, siteColor]

/-- C7: for every site set and every class selection the middle (33rd
percentile) threshold is at most the top (67th percentile) threshold, in
both the filtered-selection branch and the all-classes branch. -/
theorem thresholds_ordered (data : List SiteRecord) (sel : List ClassName) :
    (trafficThresholds data sel).2 ≤ (trafficThresholds data sel).1 :=
  trafficThresholds_snd_le_fst data sel

/-- C8: the classification-and-map construction is a pure function of its
inputs: running it with one selection and then another leaves the original
site records unchanged, and each result depends only on the original
data. -/
theorem no_input_mutation (data : List SiteRecord)
    (sel1 sel2 : List ClassName) (s1 s2 : Bool) :
    (create_traffic_map_state data sel1 s1).2 = data ∧
    (create_traffic_map_state (create_traffic_map_state data sel1 s1).2
      sel2 s2).2 = data ∧
    (create_traffic_map_state data sel1 s1).1 =
      create_traffic_map data s1 sel1 ∧
    (create_traffic_map_state (create_traffic_map_state data sel1 s1).2
      sel2 s2).1 = create_traffic_map data s2 sel2 :=
  ⟨rfl, rfl, rfl, rfl⟩

/-- C9: the exported table has exactly one row per displayed site, and
each row's Total Vehicles field equals the sum of that site's eight class
counts. -/
theorem export_round_trip (data : List SiteRecord) :
    (display_data data).length = data.length ∧
    List.Forall₂ (fun item row => row.totalVehicles =
      item.Class3 + item.Class4 + item.Class5 + item.Class6 + item.Class7 +
        item.Class8 + item.Class9 + item.Class10) data (display_data data) := by
  constructor
  · simp [display_data]
  · unfold display_data
    rw [List.forall₂_map_right_iff]
    refine List.forall₂_same.mpr ?_
    intro x hx
    simp [displayRow, total8]

/-- C10: for a site whose eight class counts sum to zero, the Heavy Truck
percentage of its display row is 0 — the percentage division is guarded by
the strict positivity of the total. -/
theorem heavy_pct_zero_total (item : SiteRecord)
    (h : item.Class3 + item.Class4 + item.Class5 + item.Class6 +
      item.Class7 + item.Class8 + item.Class9 + item.Class10 = 0) :
    (displayRow item).heavyPct = 0 := by
  have ht : total8 item = 0 := h
  simp [displayRow, ht]

/-- C10 witness: the guard evaluated on a concrete all-zero site. -/
theorem heavy_pct_zero_total_witness :
    zeroSite.Class3 + zeroSite.Class4 + zeroSite.Class5 + zeroSite.Class6 +
      zeroSite.Class7 + zeroSite.Class8 + zeroSite.Class9 +
      zeroSite.Class10 = 0 ∧
    (displayRow zeroSite).heavyPct = 0 :=
  ⟨rfl, heavy_pct_zero_total zeroSite rfl⟩
